import Mathlib

abbrev Str := List Char

/-- JavaScript `\s` / `String.prototype.trim` whitespace class. -/
def isJsWhitespace (c : Char) : Bool :=
  [0x20, 0x09, 0x0a, 0x0d, 0x0b, 0x0c, 0xa0, 0x1680,
   0x2028, 0x2029, 0x202f, 0x205f, 0x3000, 0xfeff].contains c.toNat ||
  (0x2000 ≤ c.toNat && c.toNat ≤ 0x200a)

/-- JavaScript line terminators (what `^`/`$` anchor on under the `m` flag). -/
def isLineTerminator (c : Char) : Bool :=
  [0x0a, 0x0d, 0x2028, 0x2029].contains c.toNat

def isAsciiLetter (c : Char) : Bool :=
  ('a' ≤ c && c ≤ 'z') || ('A' ≤ c && c ≤ 'Z')

/-- JavaScript `String.prototype.trim`. -/
def jsTrim (s : Str) : Str :=
  ((s.dropWhile isJsWhitespace).reverse.dropWhile isJsWhitespace).reverse

/-- Length of a match of `` /^```[a-zA-Z]*\s*/ `` starting at the head of `s`
(the caller guarantees the head is at a line start).  `[a-zA-Z]*` and `\s*`
are greedy; the two classes are disjoint, so no backtracking arises. -/
def fenceOpenLen (s : Str) : Option Nat :=
  if "```".data.isPrefixOf s then
    some (3 + ((s.drop 3).takeWhile isAsciiLetter).length +
      ((((s.drop 3).drop (((s.drop 3)).takeWhile isAsciiLetter).length)).takeWhile isJsWhitespace).length)
  else none

/-- One step of `s.replace(/^```[a-zA-Z]*\s*/m, "")`: scan left to right; at
each line-start position try the pattern; remove the first (leftmost) match.
The Boolean argument records whether the current position is a line start. -/
def replaceFenceOpenAux : Bool → Str → Str
  | _, [] => []
  | lineStart, c :: rest =>
    if lineStart then
      match fenceOpenLen (c :: rest) with
      | some n => (c :: rest).drop n
      | none => c :: replaceFenceOpenAux (isLineTerminator c) rest
    else c :: replaceFenceOpenAux (isLineTerminator c) rest

/-- `s.replace(/^```[a-zA-Z]*\s*/m, "")` (the string start is a line start). -/
def replaceFenceOpen (s : Str) : Str := replaceFenceOpenAux true s

/-- Does `` /```$/m `` match at the head of `s`?  With the `m` flag, `$`
matches at the end of the input or before any line terminator. -/
def fenceCloseHere (s : Str) : Bool :=
  "```".data.isPrefixOf s &&
    (match s.drop 3 with
     | [] => true
     | d :: _ => isLineTerminator d)

/-- `s.replace(/```$/m, "")`: remove the leftmost ``` that ends a line. -/
def replaceFenceClose : Str → Str
  | [] => []
  | c :: rest =>
    if fenceCloseHere (c :: rest) then (c :: rest).drop 3
    else c :: replaceFenceClose rest

/-- `route.ts` line 3-5:
`s.replace(/^```[a-zA-Z]*\s*/m, "").replace(/```$/m, "").trim()`. -/
def stripMarkdownCodeFences (s : Str) : Str :=
  jsTrim (replaceFenceClose (replaceFenceOpen s))

/-- Parsed JSON values (the JavaScript runtime values reachable in the
pipeline).  `undefined` does not occur inside parsed JSON; property lookup
returns `Option Json` with `none` for `undefined`. -/
inductive Json where
  | null : Json
  | bool : Bool → Json
  | num : ℚ → Json
  | str : Str → Json
  | arr : List Json → Json
  | obj : List (Str × Json) → Json

/-- Property access `j.k` on a (non-`null`) value: objects yield the binding
of the key (the last one, matching JavaScript object-literal semantics for
duplicate keys), every other value yields `undefined`.  Access on `null`
throws in JavaScript and is handled separately at each use site. -/
def jsGetProp (j : Json) (k : Str) : Option Json :=
  match j with
  | Json.obj fs => (fs.reverse.find? (fun p => p.1 == k)).map (fun p => p.2)
  | _ => none

/-- Key list of an object value. -/
def jsonKeys : Json → List Str
  | Json.obj fs => fs.map (fun p => p.1)
  | _ => []

/-- JavaScript truthiness of a possibly-`undefined` JSON value
(`undefined`, `null`, `false`, `0`, and `""` are falsy). -/
def jsTruthy : Option Json → Bool
  | none => false
  | some Json.null => false
  | some (Json.bool b) => b
  | some (Json.num q) => !(q == 0)
  | some (Json.str s) => !s.isEmpty
  | some (Json.arr _) => true
  | some (Json.obj _) => true

/-- Decimal digits of a natural number. -/
def natToStr (n : Nat) : Str := (toString n).data

def intToStr (i : Int) : Str :=
  if i < 0 then '-' :: natToStr i.natAbs else natToStr i.natAbs

/-- Decimal expansion of the fractional part of `|q|` to at most 30 digits
(exact for the denominators produced by decimal literals), trailing zeros
removed. -/
def fracDigits (q : ℚ) : Str :=
  let n : Nat := (q.num.natAbs * 10 ^ 30 / q.den) % 10 ^ 30
  let padded : Str := List.replicate (30 - (natToStr n).length) '0' ++ natToStr n
  (padded.reverse.dropWhile (fun c => c == '0')).reverse

/-- JavaScript number-to-string for the rationals arising from JSON text:
integers print exactly; other values print sign, integer part, `.`, and the
decimal expansion of the fractional part. -/
def numToStr (q : ℚ) : Str :=
  if q.den = 1 then intToStr q.num
  else
    (if q < 0 then ['-'] else []) ++ natToStr (q.num.natAbs / q.den) ++ '.' :: fracDigits q

/-- Escaping of one character inside a JSON string literal, as produced by
`JSON.stringify`. -/
def escapeJsonChar (c : Char) : Str :=
  if c == '"' then ['\\', '"']
  else if c == '\\' then ['\\', '\\']
  else if c == '\n' then ['\\', 'n']
  else if c == '\r' then ['\\', 'r']
  else if c == '\t' then ['\\', 't']
  else if c == '\x08' then ['\\', 'b']
  else if c == '\x0c' then ['\\', 'f']
  else if c.toNat < 0x20 then
    '\\' :: 'u' :: '0' :: '0' ::
      (Nat.toDigits 16 c.toNat).reverse.take 2 |>.reverse
  else [c]

def quoteJsonStr (s : Str) : Str :=
  '"' :: (s.flatMap escapeJsonChar) ++ ['"']

/-- `JSON.stringify` (no replacer, no indentation). -/
def jsonStringify : Json → Str
  | Json.null => "null".data
  | Json.bool true => "true".data
  | Json.bool false => "false".data
  | Json.num q => numToStr q
  | Json.str s => quoteJsonStr s
  | Json.arr xs =>
    '[' :: List.intercalate ",".data (xs.attach.map (fun x => jsonStringify x.1)) ++ [']']
  | Json.obj fs =>
    '\x7b' :: List.intercalate ",".data
      (fs.attach.map (fun p => quoteJsonStr p.1.1 ++ ':' :: jsonStringify p.1.2)) ++ ['\x7d']
decreasing_by
  · have h := List.sizeOf_lt_of_mem x.2
    simp only [Json.arr.sizeOf_spec]
    omega
  · obtain ⟨⟨a, b⟩, hm⟩ := p
    have h := List.sizeOf_lt_of_mem hm
    simp only [Json.obj.sizeOf_spec, Prod.mk.sizeOf_spec] at h ⊢
    omega

/-- JSON (RFC 8259) insignificant whitespace. -/
def jsonWsChar (c : Char) : Bool :=
  [0x20, 0x09, 0x0a, 0x0d].contains c.toNat

def skipJsonWs (s : Str) : Str := s.dropWhile jsonWsChar

def isDigitChar (c : Char) : Bool := '0' ≤ c && c ≤ '9'

def digitVal (c : Char) : Nat := c.toNat - '0'.toNat

def hexVal (c : Char) : Option Nat :=
  let n := c.toNat
  if 0x30 ≤ n && n ≤ 0x39 then some (n - 0x30)
  else if 0x61 ≤ n && n ≤ 0x66 then some (n - 0x57)
  else if 0x41 ≤ n && n ≤ 0x46 then some (n - 0x37)
  else none

def takeDigitsAux : Nat → Nat → Str → Nat × Nat × Str
  | acc, k, [] => (acc, k, [])
  | acc, k, c :: rest =>
    if isDigitChar c then takeDigitsAux (acc * 10 + digitVal c) (k + 1) rest
    else (acc, k, c :: rest)

/-- Read a maximal run of decimal digits: value, digit count, remainder. -/
def takeDigits (s : Str) : Nat × Nat × Str := takeDigitsAux 0 0 s

/-- Body of a JSON string literal after the opening quote: contents and
remainder after the closing quote.  Unescaped control characters are
rejected, as `JSON.parse` rejects them. -/
def parseStringBody : Str → Option (Str × Str)
  | [] => none
  | '"' :: rest => some ([], rest)
  | '\\' :: esc =>
    match esc with
    | '"' :: r => (parseStringBody r).map (fun p => ('"' :: p.1, p.2))
    | '\\' :: r => (parseStringBody r).map (fun p => ('\\' :: p.1, p.2))
    | '/' :: r => (parseStringBody r).map (fun p => ('/' :: p.1, p.2))
    | 'b' :: r => (parseStringBody r).map (fun p => ('\x08' :: p.1, p.2))
    | 'f' :: r => (parseStringBody r).map (fun p => ('\x0c' :: p.1, p.2))
    | 'n' :: r => (parseStringBody r).map (fun p => ('\n' :: p.1, p.2))
    | 'r' :: r => (parseStringBody r).map (fun p => ('\r' :: p.1, p.2))
    | 't' :: r => (parseStringBody r).map (fun p => ('\t' :: p.1, p.2))
    | 'u' :: h1 :: h2 :: h3 :: h4 :: r =>
      match hexVal h1, hexVal h2, hexVal h3, hexVal h4 with
      | some a, some b, some c, some d =>
        (parseStringBody r).map
          (fun p => (Char.ofNat (((a * 16 + b) * 16 + c) * 16 + d) :: p.1, p.2))
      | _, _, _, _ => none
    | _ => none
  | c :: rest =>
    if c.toNat < 0x20 then none
    else (parseStringBody rest).map (fun p => (c :: p.1, p.2))

/-- JSON integer part: `0` or a nonzero digit followed by digits. -/
def parseIntPart : Str → Option (Nat × Str)
  | [] => none
  | '0' :: rest => some (0, rest)
  | c :: rest =>
    if isDigitChar c then
      match takeDigits (c :: rest) with
      | (v, _, r) => some (v, r)
    else none

/-- Optional JSON fraction part (`.` followed by at least one digit):
digit value, digit count, remainder. -/
def parseFrac : Str → Option (Nat × Nat × Str)
  | '.' :: rest =>
    match takeDigits rest with
    | (_, 0, _) => none
    | (v, k, r) => some (v, k, r)
  | s => some (0, 0, s)

/-- Optional JSON exponent part. -/
def parseExp : Str → Option (ℤ × Str)
  | c :: rest =>
    if c == 'e' || c == 'E' then
      match rest with
      | '+' :: r2 =>
        match takeDigits r2 with
        | (_, 0, _) => none
        | (e, _, r) => some ((e : ℤ), r)
      | '-' :: r2 =>
        match takeDigits r2 with
        | (_, 0, _) => none
        | (e, _, r) => some (-(e : ℤ), r)
      | r2 =>
        match takeDigits r2 with
        | (_, 0, _) => none
        | (e, _, r) => some ((e : ℤ), r)
    else some (0, c :: rest)
  | [] => some (0, [])

/-- JSON number literal.  The value `sign * (ip + fv/10^k) * 10^e` is built
as a single `mkRat` over naturals so that it evaluates by reduction. -/
def parseNumber (s : Str) : Option (ℚ × Str) :=
  let (neg, s1) := match s with
    | '-' :: t => (true, t)
    | t => (false, t)
  match parseIntPart s1 with
  | none => none
  | some (ip, s2) =>
    match parseFrac s2 with
    | none => none
    | some (fv, k, s3) =>
      match parseExp s3 with
      | none => none
      | some (e, s4) =>
        let m : Nat := ip * 10 ^ k + fv
        let n : ℤ := if neg then -(m : ℤ) else (m : ℤ)
        let q : ℚ :=
          if 0 ≤ e then mkRat (n * 10 ^ e.toNat) (10 ^ k)
          else mkRat n (10 ^ k * 10 ^ (-e).toNat)
        some (q, s4)

mutual

/-- JSON value (fuel-indexed; the top level supplies ample fuel). -/
def parseValue : Nat → Str → Option (Json × Str)
  | 0, _ => none
  | fuel + 1, s =>
    match skipJsonWs s with
    | [] => none
    | 'n' :: 'u' :: 'l' :: 'l' :: rest => some (Json.null, rest)
    | 't' :: 'r' :: 'u' :: 'e' :: rest => some (Json.bool true, rest)
    | 'f' :: 'a' :: 'l' :: 's' :: 'e' :: rest => some (Json.bool false, rest)
    | '"' :: rest => (parseStringBody rest).map (fun p => (Json.str p.1, p.2))
    | '[' :: rest =>
      match skipJsonWs rest with
      | ']' :: r => some (Json.arr [], r)
      | r => (parseItems fuel r).map (fun p => (Json.arr p.1, p.2))
    | '\x7b' :: rest =>
      match skipJsonWs rest with
      | '\x7d' :: r => some (Json.obj [], r)
      | r => (parseFields fuel r).map (fun p => (Json.obj p.1, p.2))
    | s' => (parseNumber s').map (fun p => (Json.num p.1, p.2))

/-- Comma-separated values up to the closing `]`. -/
def parseItems : Nat → Str → Option (List Json × Str)
  | 0, _ => none
  | fuel + 1, s =>
    match parseValue fuel s with
    | none => none
    | some (v, rest) =>
      match skipJsonWs rest with
      | ',' :: r => (parseItems fuel r).map (fun p => (v :: p.1, p.2))
      | ']' :: r => some ([v], r)
      | _ => none

/-- Comma-separated `"key": value` pairs up to the closing brace. -/
def parseFields : Nat → Str → Option (List (Str × Json) × Str)
  | 0, _ => none
  | fuel + 1, s =>
    match skipJsonWs s with
    | '"' :: rest =>
      match parseStringBody rest with
      | none => none
      | some (k, rest2) =>
        match skipJsonWs rest2 with
        | ':' :: rest3 =>
          match parseValue fuel rest3 with
          | none => none
          | some (v, rest4) =>
            match skipJsonWs rest4 with
            | ',' :: r => (parseFields fuel r).map (fun p => ((k, v) :: p.1, p.2))
            | '\x7d' :: r => some ([(k, v)], r)
            | _ => none
        | _ => none
    | _ => none

end

/-- `JSON.parse`: a complete JSON text, allowing surrounding whitespace;
`none` models a thrown `SyntaxError`. -/
def jsonParse (s : Str) : Option Json :=
  match parseValue (2 * s.length + 4) s with
  | some (j, rest) => if (skipJsonWs rest).isEmpty then some j else none
  | none => none

/-- Outcome of `fetch` + `res.json()` on the messages endpoint: HTTP success
flag (`res.ok`) and the parsed response body. -/
structure Upstream where
  ok : Bool
  data : Json

/-- The `find` callback `(c) => c.type === "text"`; `none` models the
`TypeError` thrown when the element is `null` (property access on `null`). -/
def isTextBlock : Json → Option Bool
  | Json.null => none
  | j =>
    some (match jsGetProp j "type".data with
          | some (Json.str t) => t == "text".data
          | _ => false)

/-- `Array.prototype.find`: outer `none` models a throwing callback. -/
def findTextBlock : List Json → Option (Option Json)
  | [] => some none
  | x :: rest =>
    match isTextBlock x with
    | none => none
    | some true => some (some x)
    | some false => findTextBlock rest

/-- `data?.content?.find((c) => c.type === "text")?.text ?? ""` — the value
bound to `text` in `callAnthropic`, or a thrown `TypeError`
(engine-specific message text is abstracted into fixed strings). -/
def messageText (data : Json) : Except Str Json :=
  match (match data with | Json.null => none | d => jsGetProp d "content".data) with
  | none => Except.ok (Json.str [])
  | some Json.null => Except.ok (Json.str [])
  | some (Json.arr xs) =>
    match findTextBlock xs with
    | none => Except.error "TypeError: cannot read properties of null".data
    | some none => Except.ok (Json.str [])
    | some (some blk) =>
      match jsGetProp blk "text".data with
      | none => Except.ok (Json.str [])
      | some Json.null => Except.ok (Json.str [])
      | some v => Except.ok v
  | some _ => Except.error "TypeError: data.content.find is not a function".data

/-- `route.ts` lines 7-21.  The argument is the outcome of
`fetch` + `await res.json()` (network or body-decode failure is
`Except.error` with the thrown message).  On a non-2xx status the client
throws `Anthropic error: ${JSON.stringify(data)}`; otherwise it returns the
first text block, sanitized.  Applying `.replace` to a non-string `text`
value throws. -/
def callAnthropic (r : Except Str Upstream) : Except Str Str :=
  match r with
  | Except.error m => Except.error m
  | Except.ok u =>
    if u.ok then
      match messageText u.data with
      | Except.error m => Except.error m
      | Except.ok (Json.str t) => Except.ok (stripMarkdownCodeFences t)
      | Except.ok _ => Except.error "TypeError: s.replace is not a function".data
    else Except.error ("Anthropic error: ".data ++ jsonStringify u.data)

/-- External effects of one request, abstracting `req.json()`,
`process.env.ANTHROPIC_API_KEY`, and the two upstream model calls. -/
structure Env where
  body : Except Str Json
  apiKey : Option Str
  extractResp : Except Str Upstream
  enrichResp : Except Str Upstream

/-- An HTTP response produced with `Response.json` (status defaults to 200). -/
structure Resp where
  status : Nat
  body : Json

/-- The `!apiKey` test on `process.env.ANTHROPIC_API_KEY`: `undefined` and
the empty string are falsy. -/
def apiKeyMissing : Option Str → Bool
  | none => true
  | some k => k.isEmpty

/-- `const { imageBase64, mediaType } = await req.json()`: destructuring
`null` throws a `TypeError` (`none`); any other value yields its
`imageBase64` and `mediaType` properties (`undefined` as `none`). -/
def destructureBody : Json → Option (Option Json × Option Json)
  | Json.null => none
  | j => some (jsGetProp j "imageBase64".data, jsGetProp j "mediaType".data)

/-- Abstracted message of the `TypeError` thrown when destructuring `null`. -/
def destructureNullMsg : Str := "TypeError: cannot destructure request body".data

/-- The catch-all branch, `route.ts` lines 115-117. -/
def serverErrorResp (m : Str) : Resp :=
  ⟨500, Json.obj [("error".data, Json.str "Server error".data),
                  ("details".data, Json.str m)]⟩

/-- The two-pass extract/enrich flow, `route.ts` lines 33-114 (after the
field and key checks). -/
def analyzePipeline (env : Env) : Resp :=
  match callAnthropic env.extractResp with
  | Except.error m => serverErrorResp m
  | Except.ok extractText =>
    match jsonParse extractText with
    | none =>
      ⟨502, Json.obj [("error".data, Json.str "Extraction not valid JSON".data),
                      ("raw".data, Json.str extractText)]⟩
    | some extracted =>
      match callAnthropic env.enrichResp with
      | Except.error m => serverErrorResp m
      | Except.ok enrichText =>
        match jsonParse enrichText with
        | none =>
          ⟨200, Json.obj [("extracted".data, extracted),
                          ("enrichment_error".data, Json.str "Enrichment not valid JSON".data),
                          ("raw".data, Json.str enrichText)]⟩
        | some enriched =>
          ⟨200, Json.obj [("extracted".data, extracted),
                          ("enriched".data, enriched)]⟩

/-- `route.ts` lines 23-118: body parse and destructuring, the missing-field
check (JavaScript truthiness, so an empty string counts as missing), the
API-key check (`!apiKey`, so an empty key counts as missing), then the
two-pass pipeline; thrown errors are caught and reported as 500. -/
def POST (env : Env) : Resp :=
  match env.body with
  | Except.error m => serverErrorResp m
  | Except.ok bj =>
    match destructureBody bj with
    | none => serverErrorResp destructureNullMsg
    | some (img, mt) =>
      if !jsTruthy img || !jsTruthy mt then
        ⟨400, Json.obj [("error".data, Json.str "Missing imageBase64 or mediaType".data)]⟩
      else if apiKeyMissing env.apiKey then
        ⟨500, Json.obj [("error".data, Json.str "Missing ANTHROPIC_API_KEY".data)]⟩
      else analyzePipeline env

/-- `Math.max` on two finite numbers (returns the larger argument). -/
def jsMax (a b : ℚ) : ℚ := if a < b then b else a

/-- `Math.min` on two finite numbers (returns the smaller argument). -/
def jsMin (a b : ℚ) : ℚ := if b < a then b else a

mutual

/-- JavaScript `String()` on the values reachable here (arrays join their
elements with `,`, rendering `null` holes as empty). -/
def jsToString : Json → Str
  | Json.null => "null".data
  | Json.bool true => "true".data
  | Json.bool false => "false".data
  | Json.num q => numToStr q
  | Json.str s => s
  | Json.arr xs => List.intercalate ",".data (jsJoinParts xs)
  | Json.obj _ => "[object Object]".data

/-- `Array.prototype.join` pieces (a `null` element renders as `""`). -/
def jsJoinParts : List Json → List Str
  | [] => []
  | Json.null :: rest => [] :: jsJoinParts rest
  | v :: rest => jsToString v :: jsJoinParts rest

end

def radixValAux : (Char → Option Nat) → Nat → Nat → Str → Option Nat
  | _, _, acc, [] => some acc
  | f, r, acc, c :: rest =>
    match f c with
    | some d => radixValAux f r (acc * r + d) rest
    | none => none

/-- A whole string of digits in the given radix (at least one digit). -/
def radixVal (f : Char → Option Nat) (r : Nat) : Str → Option Nat
  | [] => none
  | s => radixValAux f r 0 s

def binDigitVal (c : Char) : Option Nat :=
  if c == '0' then some 0 else if c == '1' then some 1 else none

def octDigitVal (c : Char) : Option Nat :=
  if '0' ≤ c && c ≤ '7' then some (digitVal c) else none

/-- JavaScript `StrUnsignedDecimalLiteral`, significantly laxer than JSON:
`05`, `5.`, `.5`, `1e3` are all accepted.  Whole-string match required. -/
def strUnsignedDec (s : Str) : Option ℚ :=
  if s = "Infinity".data then none
  else
    match takeDigits s with
    | (ipv, ipk, r1) =>
      let (fv, fk, r2) := match r1 with
        | '.' :: t => (match takeDigits t with | (v, k, r) => (v, k, r))
        | t => (0, 0, t)
      if ipk + fk = 0 then none
      else
        match r2 with
        | [] => some (mkRat ((ipv * 10 ^ fk + fv : Nat) : ℤ) (10 ^ fk))
        | c :: t =>
          if c == 'e' || c == 'E' then
            let (eneg, t2) := match t with
              | '+' :: t3 => (false, t3)
              | '-' :: t3 => (true, t3)
              | t3 => (false, t3)
            match takeDigits t2 with
            | (_, 0, _) => none
            | (e, _, []) =>
              let m : Nat := ipv * 10 ^ fk + fv
              some (if eneg then mkRat (m : ℤ) (10 ^ fk * 10 ^ e)
                    else mkRat ((m * 10 ^ e : Nat) : ℤ) (10 ^ fk))
            | (_, _, _ :: _) => none
          else none

/-- JavaScript `ToNumber` on a string: trim, empty means `0`, a signless
radix-prefixed integer, or a signed decimal literal / `Infinity`.  `none`
collapses `NaN` and the infinities (exactly the values `Number.isFinite`
rejects, which is all `clamp01` observes). -/
def strToNumber (s : Str) : Option ℚ :=
  match jsTrim s with
  | [] => some 0
  | '0' :: 'x' :: r => (radixVal hexVal 16 r).map (fun n => (n : ℚ))
  | '0' :: 'X' :: r => (radixVal hexVal 16 r).map (fun n => (n : ℚ))
  | '0' :: 'o' :: r => (radixVal octDigitVal 8 r).map (fun n => (n : ℚ))
  | '0' :: 'O' :: r => (radixVal octDigitVal 8 r).map (fun n => (n : ℚ))
  | '0' :: 'b' :: r => (radixVal binDigitVal 2 r).map (fun n => (n : ℚ))
  | '0' :: 'B' :: r => (radixVal binDigitVal 2 r).map (fun n => (n : ℚ))
  | '+' :: t => strUnsignedDec t
  | '-' :: t => (strUnsignedDec t).map (fun q => -q)
  | t => strUnsignedDec t

/-- JavaScript `Number()` on the values reachable here (`none` for a
non-finite result): `undefined` is `NaN`, `null` is `0`, booleans are `0`
and `1`, strings parse, arrays and objects coerce through their string
form. -/
def toNumber : Option Json → Option ℚ
  | none => none
  | some Json.null => some 0
  | some (Json.bool b) => some (if b then 1 else 0)
  | some (Json.num q) => some q
  | some (Json.str s) => strToNumber s
  | some (Json.arr xs) => strToNumber (jsToString (Json.arr xs))
  | some (Json.obj fs) => strToNumber (jsToString (Json.obj fs))

/-- `page.tsx` lines 36-40.  The input is a JavaScript value (`none` for
`undefined`); the output `none` is the function's `null`.  The first match
mirrors `typeof n === "number" ? n : Number(n)`; a `none` coercion is
exactly `!Number.isFinite(x)`. -/
def clamp01 (n : Option Json) : Option ℚ :=
  match (match n with | some (Json.num q) => some q | _ => toNumber n) with
  | none => none
  | some x => some (jsMax 0 (jsMin 1 x))

/-- `r.field ?? null`. -/
def nullFallback (r : Json) (k : Str) : Json := (jsGetProp r k).getD Json.null

/-- `Array.isArray(r.grapes) ? r.grapes : r.grapes ? [String(r.grapes)] : null`. -/
def normalizeGrapes (r : Json) : Json :=
  match jsGetProp r "grapes".data with
  | some (Json.arr xs) => Json.arr xs
  | g =>
    match g, jsTruthy g with
    | some v, true => Json.arr [Json.str (jsToString v)]
    | _, _ => Json.null

/-- `clamp01`'s `number | null` result as a record field value. -/
def clampJson (v : Option ℚ) : Json :=
  match v with
  | none => Json.null
  | some q => Json.num q

/-- The `normalized` record built in `page.tsx` `onPick` (lines 115-128) from
`data.result`. -/
def normalizeResult (r : Json) : List (Str × Json) :=
  [("producer".data, nullFallback r "producer".data),
   ("wine_name".data, nullFallback r "wine_name".data),
   ("vintage".data, nullFallback r "vintage".data),
   ("region".data, nullFallback r "region".data),
   ("country".data, nullFallback r "country".data),
   ("grapes".data, normalizeGrapes r),
   ("appellation".data, nullFallback r "appellation".data),
   ("abv".data, nullFallback r "abv".data),
   ("tasting_notes".data, nullFallback r "tasting_notes".data),
   ("likely_price_range_usd".data, nullFallback r "likely_price_range_usd".data),
   ("confidence_0_to_1".data, clampJson (clamp01 (jsGetProp r "confidence_0_to_1".data))),
   ("label_text_read".data, nullFallback r "label_text_read".data)]

/-- The field set named in the Task A extraction prompt
(`route.ts` lines 46-48). -/
def extractionKeys : List Str :=
  ["producer".data, "wine_name".data, "vintage".data, "region".data,
   "country".data, "grapes".data, "appellation".data, "abv".data,
   "label_text_read".data, "confidence_0_to_1".data]

/-- The request cleared the field check and the key check (so `POST`
reaches the two-pass pipeline). -/
def gatePassed (env : Env) : Bool :=
  match env.body with
  | Except.error _ => false
  | Except.ok bj =>
    match destructureBody bj with
    | none => false
    | some (img, mt) =>
      jsTruthy img && jsTruthy mt && !apiKeyMissing env.apiKey

/-- Association lookup in a record built by the client (unique keys, first
match). -/
def lookupField (fs : List (Str × Json)) (k : Str) : Option Json :=
  (fs.find? (fun p => p.1 == k)).map (fun p => p.2)

/-- The field set of the single-pass client's `Result` type
(`page.tsx` lines 5-18), in the order `normalized` is built. -/
def resultKeys : List Str :=
  ["producer".data, "wine_name".data, "vintage".data, "region".data,
   "country".data, "grapes".data, "appellation".data, "abv".data,
   "tasting_notes".data, "likely_price_range_usd".data,
   "confidence_0_to_1".data, "label_text_read".data]

/-- A 2xx messages-API response whose only content block is a text block
carrying `t` (used to instantiate witnesses). -/
def okTextUpstream (t : Str) : Upstream :=
  ⟨true, Json.obj [("content".data,
    Json.arr [Json.obj [("type".data, Json.str "text".data),
                        ("text".data, Json.str t)]])]⟩

/-- A well-formed request body. -/
def goodBody : Json :=
  Json.obj [("imageBase64".data, Json.str "abc".data),
            ("mediaType".data, Json.str "image/jpeg".data)]

def envC1 : Env :=
  ⟨Except.ok goodBody, some "k".data,
   Except.ok (okTextUpstream "\x7b\x7d".data),
   Except.ok (okTextUpstream "nope".data)⟩

def envC2 : Env :=
  ⟨Except.ok goodBody, some "k".data,
   Except.ok (okTextUpstream "not json".data),
   Except.error []⟩

def envC6 : Env := ⟨Except.ok goodBody, none, Except.error [], Except.error []⟩

def bodyEmptyImage : Json :=
  Json.obj [("imageBase64".data, Json.str []),
            ("mediaType".data, Json.str "image/jpeg".data)]

def envC6x : Env := ⟨Except.ok bodyEmptyImage, none, Except.error [], Except.error []⟩

def envC7 : Env := ⟨Except.ok (Json.obj []), none, Except.error [], Except.error []⟩

def envC7x : Env := ⟨Except.ok Json.null, none, Except.error [], Except.error []⟩

def uBad : Upstream := ⟨false, Json.str "rate limited".data⟩

def envC8a : Env := ⟨Except.ok goodBody, some "k".data, Except.ok uBad, Except.error []⟩

def envC8b : Env :=
  ⟨Except.ok goodBody, some "k".data,
   Except.ok (okTextUpstream "\x7b\x7d".data), Except.ok uBad⟩

def envC9 : Env :=
  ⟨Except.ok goodBody, some "k".data,
   Except.ok (okTextUpstream "\x7b\x7d".data),
   Except.ok (okTextUpstream "true".data)⟩

def envC10 : Env :=
  ⟨Except.ok goodBody, some "k".data,
   Except.ok ⟨true, Json.obj [("content".data,
     Json.arr [Json.obj [("type".data, Json.str "thinking".data)]])]⟩,
   Except.error []⟩

def envC4 : Env :=
  ⟨Except.ok goodBody, some "k".data,
   Except.ok (okTextUpstream "\x7b\"producer\":\"X\"\x7d".data),
   Except.ok (okTextUpstream "\x7b\x7d".data)⟩

def envC4W : Env := envC4

/-! ## Lemmas and claims -/

lemma POST_gate (env : Env) (hg : gatePassed env = true) :
    POST env = analyzePipeline env := by
  unfold gatePassed at hg
  unfold POST
  cases hb : env.body with
  | error m => rw [hb] at hg; simp at hg
  | ok bj =>
    rw [hb] at hg
    cases hd : destructureBody bj with
    | none => simp [hd] at hg
    | some p =>
      obtain ⟨img, mt⟩ := p
      simp only [hd, Bool.and_eq_true, Bool.not_eq_true'] at hg
      obtain ⟨⟨h1, h2⟩, h3⟩ := hg
      simp [hd, h1, h2, h3]

lemma no_backtick_not_fence {s : Str} (h : ('`' : Char) ∉ s) :
    "```".data.isPrefixOf s = false := by
  cases s with
  | nil => rfl
  | cons c rest =>
    have hc : ('`' : Char) ≠ c := by
      intro hcc
      exact h (hcc ▸ List.mem_cons_self c rest)
    show List.isPrefixOf ['`', '`', '`'] (c :: rest) = false
    simp [List.isPrefixOf, hc]

lemma replaceFenceOpenAux_id (b : Bool) (s : Str) (h : ('`' : Char) ∉ s) :
    replaceFenceOpenAux b s = s := by
  induction s generalizing b with
  | nil => cases b <;> rfl
  | cons c rest ih =>
    have hc : ('`' : Char) ∉ rest := fun hm => h (List.mem_cons_of_mem c hm)
    have hf : fenceOpenLen (c :: rest) = none := by
      simp [fenceOpenLen, no_backtick_not_fence h]
    cases b with
    | true => simp [replaceFenceOpenAux, hf, ih _ hc]
    | false => simp [replaceFenceOpenAux, ih _ hc]

lemma replaceFenceClose_id (s : Str) (h : ('`' : Char) ∉ s) :
    replaceFenceClose s = s := by
  induction s with
  | nil => rfl
  | cons c rest ih =>
    have hc : ('`' : Char) ∉ rest := fun hm => h (List.mem_cons_of_mem c hm)
    have hf : fenceCloseHere (c :: rest) = false := by
      simp [fenceCloseHere, no_backtick_not_fence h]
    simp [replaceFenceClose, hf, ih hc]

lemma strip_of_no_backtick (s : Str) (h : ('`' : Char) ∉ s) :
    stripMarkdownCodeFences s = jsTrim s := by
  unfold stripMarkdownCodeFences replaceFenceOpen
  rw [replaceFenceOpenAux_id _ _ h, replaceFenceClose_id _ h]

/-- Claim C3, counterexample.  The claim says the sanitizer strips only
fences anchored at the start/end of the string.  The input
`"x\n```json\ny"` neither starts nor ends with a fence, so under the claim
it would be returned unchanged modulo trimming; the code (whose regex
anchors are per-line because of the `m` flag) strips the interior fence and
returns `"x\ny"`. -/
theorem C3_counterexample :
    "```".data.isPrefixOf "x\n```json\ny".data = false ∧
    "```".data.isSuffixOf "x\n```json\ny".data = false ∧
    stripMarkdownCodeFences "x\n```json\ny".data = "x\ny".data ∧
    stripMarkdownCodeFences "x\n```json\ny".data ≠ jsTrim "x\n```json\ny".data :=
  ⟨rfl, by decide, by decide, by decide⟩

/-- Claim C3 (amended): the sanitizer removes the first fence opener
anchored at the start of any line (and then the first ``` at the end of any
line) — not only at the start/end of the whole string — and trims; a string
wrapped as ```` ```json\n{"a":1}\n``` ```` maps to `{"a":1}`, and a string
containing no backtick is returned unchanged modulo trimming. -/
theorem C3_amended :
    stripMarkdownCodeFences "```json\n\x7b\"a\":1\x7d\n```".data = "\x7b\"a\":1\x7d".data ∧
    (∀ s : Str, ('`' : Char) ∉ s → stripMarkdownCodeFences s = jsTrim s) :=
  ⟨by decide, strip_of_no_backtick⟩

/-- Claim C3 witness: the amended theorem evaluated at a fence-free input. -/
theorem C3_amended_witness :
    stripMarkdownCodeFences " hello ".data = jsTrim " hello ".data :=
  C3_amended.2 " hello ".data (by decide)

/-- Claim C5, counterexample.  The claim maps every non-numeric input to
`null`; but `clamp01(null)` is `0`, because `Number(null)` is `0` (finite),
so the clamp returns `0` rather than `null`. -/
theorem C5_counterexample :
    (∀ q : ℚ, (some Json.null : Option Json) ≠ some (Json.num q)) ∧
    clamp01 (some Json.null) = some 0 ∧
    clamp01 (some Json.null) ≠ none :=
  ⟨fun q h => by simp at h, by decide, by decide⟩

/-- Claim C5 (amended): `clamp01` is total; a finite numeric input below 0,
above 1, or within [0,1] maps to 0, 1, or itself respectively; a non-number
input is first coerced with `Number()`, and only inputs whose coercion is
not finite (such as `undefined` or an object) map to `null` — in particular
`null` maps to 0, `true` to 1, `false` to 0, and the string "2" to 1. -/
theorem C5_amended :
    (∀ q : ℚ, q < 0 → clamp01 (some (Json.num q)) = some 0) ∧
    (∀ q : ℚ, 1 < q → clamp01 (some (Json.num q)) = some 1) ∧
    (∀ q : ℚ, 0 ≤ q → q ≤ 1 → clamp01 (some (Json.num q)) = some q) ∧
    (∀ v : Option Json, toNumber v = none → clamp01 v = none) ∧
    clamp01 none = none ∧
    clamp01 (some Json.null) = some 0 ∧
    clamp01 (some (Json.bool true)) = some 1 ∧
    clamp01 (some (Json.bool false)) = some 0 ∧
    clamp01 (some (Json.str "2".data)) = some 1 := by
  refine ⟨?_, ?_, ?_, ?_, by decide, by decide, by decide, by decide, by decide⟩
  · intro q hq
    simp only [clamp01]
    rw [show jsMin 1 q = q from if_pos (by linarith),
        show jsMax 0 q = 0 from if_neg (by linarith)]
  · intro q hq
    simp only [clamp01]
    rw [show jsMin 1 q = 1 from if_neg (by linarith),
        show jsMax 0 1 = 1 from if_pos (by norm_num)]
  · intro q h0 h1
    simp only [clamp01]
    have hmin : jsMin 1 q = q := by
      unfold jsMin
      split
      · rfl
      · next h => linarith
    have hmax : jsMax 0 q = q := by
      unfold jsMax
      split
      · rfl
      · next h => linarith
    rw [hmin, hmax]
  · intro v hv
    match v with
    | none => rfl
    | some Json.null => simp [toNumber] at hv
    | some (Json.bool b) => simp [toNumber] at hv
    | some (Json.num q) => simp [toNumber] at hv
    | some (Json.str s) =>
      simp only [toNumber] at hv
      simp [clamp01, toNumber, hv]
    | some (Json.arr xs) =>
      simp only [toNumber] at hv
      simp [clamp01, toNumber, hv]
    | some (Json.obj fs) =>
      simp only [toNumber] at hv
      simp [clamp01, toNumber, hv]

/-- Claim C5 witness: the amended theorem evaluated at -2, 2, 1/2, and an
object input. -/
theorem C5_amended_witness :
    clamp01 (some (Json.num (mkRat (-2) 1))) = some 0 ∧
    clamp01 (some (Json.num (mkRat 2 1))) = some 1 ∧
    clamp01 (some (Json.num (mkRat 1 2))) = some (mkRat 1 2) ∧
    clamp01 (some (Json.obj [])) = none :=
  ⟨C5_amended.1 _ (by decide), C5_amended.2.1 _ (by decide),
   C5_amended.2.2.1 _ (by decide) (by decide),
   C5_amended.2.2.2.1 _ (by decide)⟩

/-- Claim C1: in the two-pass flow, when the extraction model response
parses as JSON but the enrichment response does not, the handler returns
HTTP 200 whose body carries the parsed extracted record, the distinct
`enrichment_error` marker, and the raw enrichment text — the extraction
result is not discarded. -/
theorem C1_partial_success (env : Env) (t tn : Str) (j : Json)
    (hg : gatePassed env = true)
    (he : callAnthropic env.extractResp = Except.ok t)
    (hp : jsonParse t = some j)
    (hn : callAnthropic env.enrichResp = Except.ok tn)
    (hq : jsonParse tn = none) :
    POST env = ⟨200, Json.obj
      [("extracted".data, j),
       ("enrichment_error".data, Json.str "Enrichment not valid JSON".data),
       ("raw".data, Json.str tn)]⟩ := by
  rw [POST_gate env hg]
  simp [analyzePipeline, he, hp, hn, hq]

/-- Claim C1 witness: a concrete request in which extraction yields `{}` and
enrichment yields the unparsable `nope`. -/
theorem C1_witness :
    POST envC1 = ⟨200, Json.obj
      [("extracted".data, Json.obj []),
       ("enrichment_error".data, Json.str "Enrichment not valid JSON".data),
       ("raw".data, Json.str "nope".data)]⟩ :=
  C1_partial_success envC1 "\x7b\x7d".data "nope".data (Json.obj [])
    (by decide) rfl rfl rfl rfl

/-- Claim C2: when the sanitized extraction model response is not valid
JSON, the handler returns status 502 with the distinct marker
`Extraction not valid JSON` and that text, unmodified, in `raw`. -/
theorem C2_extraction_not_json (env : Env) (t : Str)
    (hg : gatePassed env = true)
    (he : callAnthropic env.extractResp = Except.ok t)
    (hp : jsonParse t = none) :
    POST env = ⟨502, Json.obj
      [("error".data, Json.str "Extraction not valid JSON".data),
       ("raw".data, Json.str t)]⟩ := by
  rw [POST_gate env hg]
  simp [analyzePipeline, he, hp]

/-- Claim C2 witness: a concrete request whose extraction response is the
unparsable `not json`. -/
theorem C2_witness :
    POST envC2 = ⟨502, Json.obj
      [("error".data, Json.str "Extraction not valid JSON".data),
       ("raw".data, Json.str "not json".data)]⟩ :=
  C2_extraction_not_json envC2 "not json".data (by decide) rfl rfl

/-- Claim C6 (amended): for a request body carrying `imageBase64` and
`mediaType` as truthy values, a missing API credential yields status 500,
and the response does not depend on the upstream oracles — no outbound call
is consulted.  (The amendment: a body carrying the fields with falsy values,
such as an empty string, takes the 400 branch instead; see the
counterexample.) -/
theorem C6_missing_key (env : Env) (bj : Json) (img mt : Option Json)
    (hb : env.body = Except.ok bj)
    (hd : destructureBody bj = some (img, mt))
    (hi : jsTruthy img = true)
    (hm : jsTruthy mt = true)
    (hk : env.apiKey = none) :
    POST env = ⟨500, Json.obj [("error".data, Json.str "Missing ANTHROPIC_API_KEY".data)]⟩ ∧
    (∀ r1 r2 : Except Str Upstream,
      POST { env with extractResp := r1, enrichResp := r2 } = POST env) := by
  have hmain : ∀ r1 r2 : Except Str Upstream,
      POST { env with extractResp := r1, enrichResp := r2 } =
        ⟨500, Json.obj [("error".data, Json.str "Missing ANTHROPIC_API_KEY".data)]⟩ := by
    intro r1 r2
    unfold POST
    simp [hb, hd, hi, hm, hk, apiKeyMissing]
  have h0 : POST env =
      ⟨500, Json.obj [("error".data, Json.str "Missing ANTHROPIC_API_KEY".data)]⟩ :=
    hmain env.extractResp env.enrichResp
  exact ⟨h0, fun r1 r2 => (hmain r1 r2).trans h0.symm⟩

/-- Claim C6 witness: a well-formed body with no credential configured. -/
theorem C6_witness :
    POST envC6 = ⟨500, Json.obj [("error".data, Json.str "Missing ANTHROPIC_API_KEY".data)]⟩ ∧
    (∀ r1 r2 : Except Str Upstream,
      POST { envC6 with extractResp := r1, enrichResp := r2 } = POST envC6) :=
  C6_missing_key envC6 goodBody
    (some (Json.str "abc".data)) (some (Json.str "image/jpeg".data))
    rfl rfl (by decide) (by decide) rfl

/-- Claim C6, counterexample.  A request body that carries both
`imageBase64` and `mediaType` (with `imageBase64` the empty string) and no
credential is answered with 400, not the claimed 500: the handler's
truthiness check treats the empty string as missing. -/
theorem C6_counterexample :
    jsGetProp bodyEmptyImage "imageBase64".data = some (Json.str []) ∧
    jsGetProp bodyEmptyImage "mediaType".data = some (Json.str "image/jpeg".data) ∧
    envC6x.apiKey = none ∧
    (POST envC6x).status = 400 ∧
    (POST envC6x).status ≠ 500 :=
  ⟨rfl, rfl, rfl, rfl, by decide⟩

lemma destructure_not_null (bj : Json) (h : bj ≠ Json.null) :
    destructureBody bj =
      some (jsGetProp bj "imageBase64".data, jsGetProp bj "mediaType".data) := by
  cases bj with
  | null => exact absurd rfl h
  | bool b => rfl
  | num q => rfl
  | str s => rfl
  | arr xs => rfl
  | obj fs => rfl

/-- Claim C7 (amended): for every request whose parsed body is not the JSON
value `null` and is missing `imageBase64` or `mediaType`, the handler
returns 400 with a description of the missing fields.  (The amendment: a
body parsing to `null` makes the destructuring throw, so it is answered
with 500; see the counterexample.) -/
theorem C7_missing_fields (env : Env) (bj : Json)
    (hb : env.body = Except.ok bj) (hnn : bj ≠ Json.null)
    (h : jsGetProp bj "imageBase64".data = none ∨ jsGetProp bj "mediaType".data = none) :
    POST env = ⟨400, Json.obj
      [("error".data, Json.str "Missing imageBase64 or mediaType".data)]⟩ := by
  unfold POST
  rcases h with h | h <;>
    simp [hb, destructure_not_null bj hnn, h, jsTruthy]

/-- Claim C7 witness: an empty-object body is answered with 400. -/
theorem C7_witness :
    POST envC7 = ⟨400, Json.obj
      [("error".data, Json.str "Missing imageBase64 or mediaType".data)]⟩ :=
  C7_missing_fields envC7 (Json.obj []) rfl
    (fun hh => Json.noConfusion hh) (Or.inl rfl)

/-- Claim C7, counterexample.  The body `null` is an input missing both
fields, yet destructuring it throws, so the handler answers 500
(`Server error`), not the claimed 400. -/
theorem C7_counterexample :
    jsGetProp Json.null "imageBase64".data = none ∧
    jsGetProp Json.null "mediaType".data = none ∧
    (POST envC7x).status = 500 ∧
    (POST envC7x).status ≠ 400 :=
  ⟨rfl, rfl, rfl, by decide⟩

/-- Claim C8: a non-2xx upstream response makes the model client raise an
error carrying the full upstream body (`JSON.stringify`ed), and the handler
reports it as a 500 with that payload in `details` — whichever of the two
model calls failed. -/
theorem C8_upstream_error (env1 env2 : Env) (u u2 : Upstream) (t : Str) (j : Json)
    (hu : u.ok = false) (hu2 : u2.ok = false)
    (hg1 : gatePassed env1 = true) (he1 : env1.extractResp = Except.ok u)
    (hg2 : gatePassed env2 = true)
    (he2 : callAnthropic env2.extractResp = Except.ok t)
    (hp2 : jsonParse t = some j)
    (hn2 : env2.enrichResp = Except.ok u2) :
    callAnthropic (Except.ok u) =
      Except.error ("Anthropic error: ".data ++ jsonStringify u.data) ∧
    POST env1 = ⟨500, Json.obj
      [("error".data, Json.str "Server error".data),
       ("details".data, Json.str ("Anthropic error: ".data ++ jsonStringify u.data))]⟩ ∧
    POST env2 = ⟨500, Json.obj
      [("error".data, Json.str "Server error".data),
       ("details".data, Json.str ("Anthropic error: ".data ++ jsonStringify u2.data))]⟩ := by
  have hce : ∀ (w : Upstream), w.ok = false →
      callAnthropic (Except.ok w) =
        Except.error ("Anthropic error: ".data ++ jsonStringify w.data) := by
    intro w hw
    simp [callAnthropic, hw]
  refine ⟨hce u hu, ?_, ?_⟩
  · rw [POST_gate env1 hg1]
    simp [analyzePipeline, he1, hce u hu, serverErrorResp]
  · rw [POST_gate env2 hg2]
    simp [analyzePipeline, he2, hp2, hn2, hce u2 hu2, serverErrorResp]

/-- Claim C8 witness: a failing extraction call and a failing enrichment
call, each reported as a 500 carrying the stringified upstream body. -/
theorem C8_witness :
    callAnthropic (Except.ok uBad) =
      Except.error ("Anthropic error: ".data ++ jsonStringify uBad.data) ∧
    POST envC8a = ⟨500, Json.obj
      [("error".data, Json.str "Server error".data),
       ("details".data, Json.str ("Anthropic error: ".data ++ jsonStringify uBad.data))]⟩ ∧
    POST envC8b = ⟨500, Json.obj
      [("error".data, Json.str "Server error".data),
       ("details".data, Json.str ("Anthropic error: ".data ++ jsonStringify uBad.data))]⟩ :=
  C8_upstream_error envC8a envC8b uBad uBad "\x7b\x7d".data (Json.obj [])
    rfl rfl (by decide) rfl (by decide) rfl rfl rfl

lemma POST_cases (env : Env) :
    POST env = analyzePipeline env ∨ (POST env).status ≠ 200 := by
  obtain ⟨body, key, eR, nR⟩ := env
  cases body with
  | error m => right; simp [POST, serverErrorResp]
  | ok bj =>
    cases hd : destructureBody bj with
    | none => right; simp [POST, hd, serverErrorResp]
    | some p =>
      obtain ⟨img, mt⟩ := p
      cases hi : jsTruthy img with
      | false => right; simp [POST, hd, hi]
      | true =>
        cases hm : jsTruthy mt with
        | false => right; simp [POST, hd, hi, hm]
        | true =>
          cases hk : apiKeyMissing key with
          | true => right; simp [POST, hd, hi, hm, hk]
          | false => left; simp [POST, hd, hi, hm, hk]

lemma jsGetProp_partial_body (j : Json) (tn : Str) :
    jsGetProp (Json.obj
      [("extracted".data, j),
       ("enrichment_error".data, Json.str "Enrichment not valid JSON".data),
       ("raw".data, Json.str tn)]) "extracted".data = some j := by
  have b1 : ("raw".data == "extracted".data) = false := by decide
  have b2 : ("enrichment_error".data == "extracted".data) = false := by decide
  have b3 : ("extracted".data == "extracted".data) = true := by decide
  simp [jsGetProp, List.find?, b1, b2, b3]

lemma jsGetProp_full_body (j e : Json) :
    jsGetProp (Json.obj
      [("extracted".data, j), ("enriched".data, e)]) "extracted".data = some j := by
  have b1 : ("enriched".data == "extracted".data) = false := by decide
  have b2 : ("extracted".data == "extracted".data) = true := by decide
  simp [jsGetProp, List.find?, b1, b2]

lemma pipeline_200_extracted (env : Env)
    (h : (analyzePipeline env).status = 200) :
    ∃ j, jsGetProp (analyzePipeline env).body "extracted".data = some j ∧
      ∃ t, callAnthropic env.extractResp = Except.ok t ∧ jsonParse t = some j := by
  unfold analyzePipeline at h ⊢
  cases hE : callAnthropic env.extractResp with
  | error m => simp [hE, serverErrorResp] at h
  | ok t =>
    cases hP : jsonParse t with
    | none => simp [hE, hP] at h
    | some j =>
      cases hN : callAnthropic env.enrichResp with
      | error m => simp [hE, hP, hN, serverErrorResp] at h
      | ok tn =>
        cases hQ : jsonParse tn with
        | none =>
          refine ⟨j, ?_, t, rfl, hP⟩
          simp only [hP, hN, hQ]
          exact jsGetProp_partial_body j tn
        | some e =>
          refine ⟨j, ?_, t, rfl, hP⟩
          simp only [hP, hN, hQ]
          exact jsGetProp_full_body j e

/-- Claim C9: every 200 response of the two-pass handler carries the
successfully parsed extracted record in `extracted`, and a body with an
`enriched` field always has an `extracted` field — no 200 body carries
enrichment data without extraction data. -/
theorem C9_200_carries_extraction (env : Env)
    (h : (POST env).status = 200) :
    (∃ j, jsGetProp (POST env).body "extracted".data = some j ∧
      ∃ t, callAnthropic env.extractResp = Except.ok t ∧ jsonParse t = some j) ∧
    ((jsGetProp (POST env).body "enriched".data).isSome →
      (jsGetProp (POST env).body "extracted".data).isSome) := by
  rcases POST_cases env with hPe | hne
  · rw [hPe] at h ⊢
    have h1 := pipeline_200_extracted env h
    refine ⟨h1, fun _ => ?_⟩
    obtain ⟨j, hj, _⟩ := h1
    simp [hj]
  · exact absurd h hne

/-- Claim C9 witness: a fully successful request (extraction `{}`,
enrichment `true`), observed at status 200. -/
theorem C9_witness :
    (∃ j, jsGetProp (POST envC9).body "extracted".data = some j ∧
      ∃ t, callAnthropic envC9.extractResp = Except.ok t ∧ jsonParse t = some j) ∧
    ((jsGetProp (POST envC9).body "enriched".data).isSome →
      (jsGetProp (POST envC9).body "extracted".data).isSome) :=
  C9_200_carries_extraction envC9 rfl

lemma findTextBlock_none (xs : List Json)
    (hx : ∀ x ∈ xs, isTextBlock x = some false) :
    findTextBlock xs = some none := by
  induction xs with
  | nil => rfl
  | cons x rest ih =>
    have h1 := hx x (List.mem_cons_self x rest)
    simp [findTextBlock, h1, ih (fun y hy => hx y (List.mem_cons_of_mem x hy))]

/-- Claim C10: a 2xx upstream response whose content array has no block of
type `text` makes the model client return the empty string (not fail), and
the extraction pass consequently answers 502 with `raw` equal to the empty
string. -/
theorem C10_empty_text (env : Env) (d : Json) (xs : List Json)
    (hg : gatePassed env = true)
    (he : env.extractResp = Except.ok ⟨true, d⟩)
    (hc : jsGetProp d "content".data = some (Json.arr xs))
    (hx : ∀ x ∈ xs, isTextBlock x = some false) :
    callAnthropic env.extractResp = Except.ok [] ∧
    POST env = ⟨502, Json.obj
      [("error".data, Json.str "Extraction not valid JSON".data),
       ("raw".data, Json.str [])]⟩ := by
  have hm : messageText d = Except.ok (Json.str []) := by
    cases d with
    | obj fs => simp [messageText, hc, findTextBlock_none xs hx]
    | null => simp [jsGetProp] at hc
    | bool b => simp [jsGetProp] at hc
    | num q => simp [jsGetProp] at hc
    | str s => simp [jsGetProp] at hc
    | arr ys => simp [jsGetProp] at hc
  have hstrip : stripMarkdownCodeFences [] = [] := rfl
  have hca : callAnthropic env.extractResp = Except.ok [] := by
    rw [he]
    simp [callAnthropic, hm, hstrip]
  refine ⟨hca, ?_⟩
  rw [POST_gate env hg]
  have hparse : jsonParse ([] : Str) = none := rfl
  simp [analyzePipeline, hca, hparse]

/-- Claim C10 witness: a 2xx extraction response whose content array holds
only a `thinking` block. -/
theorem C10_witness :
    callAnthropic envC10.extractResp = Except.ok [] ∧
    POST envC10 = ⟨502, Json.obj
      [("error".data, Json.str "Extraction not valid JSON".data),
       ("raw".data, Json.str [])]⟩ :=
  C10_empty_text envC10
    (Json.obj [("content".data,
      Json.arr [Json.obj [("type".data, Json.str "thinking".data)]])])
    [Json.obj [("type".data, Json.str "thinking".data)]]
    (by decide) rfl rfl
    (by
      intro x hx
      simp only [List.mem_singleton] at hx
      subst hx
      decide)

/-- Claim C4, counterexample.  The claim says a valid extraction response
matching the schema yields an object with exactly the ten declared fields,
with `null` substituted for omitted ones.  The two-pass route returns the
parsed object verbatim: for the schema-conforming response
`{"producer":"X"}` the 200 body's `extracted` record has the single key
`producer`; the nine omitted fields (such as `label_text_read`) are absent,
not `null`. -/
theorem C4_counterexample :
    POST envC4 = ⟨200, Json.obj
      [("extracted".data, Json.obj [("producer".data, Json.str "X".data)]),
       ("enriched".data, Json.obj [])]⟩ ∧
    jsonKeys (Json.obj [("producer".data, Json.str "X".data)]) ≠ extractionKeys ∧
    jsGetProp (Json.obj [("producer".data, Json.str "X".data)]) "label_text_read".data = none :=
  ⟨rfl, by decide, rfl⟩

/-- Claim C4 (amended): the two-pass extraction pass returns the parsed
object verbatim in `extracted` (no field is added or dropped); the
null-for-omitted-fields substitution instead lives in the single-pass
client, whose `normalized` record has exactly the twelve declared `Result`
fields, with `null` for every field the response omitted. -/
theorem C4_amended (env : Env) (t tn : Str) (j : Json)
    (hg : gatePassed env = true)
    (he : callAnthropic env.extractResp = Except.ok t)
    (hp : jsonParse t = some j)
    (hn : callAnthropic env.enrichResp = Except.ok tn) :
    ((POST env).status = 200 ∧
     jsGetProp (POST env).body "extracted".data = some j) ∧
    (∀ r : Json,
      (normalizeResult r).map Prod.fst = resultKeys ∧
      ∀ k ∈ resultKeys, jsGetProp r k = none → (k, Json.null) ∈ normalizeResult r) := by
  constructor
  · rw [POST_gate env hg]
    unfold analyzePipeline
    cases hq : jsonParse tn with
    | none =>
      constructor
      · simp [he, hp, hn, hq]
      · simp only [he, hp, hn, hq]
        exact jsGetProp_partial_body j tn
    | some e =>
      constructor
      · simp [he, hp, hn, hq]
      · simp only [he, hp, hn, hq]
        exact jsGetProp_full_body j e
  · intro r
    constructor
    · simp [normalizeResult, resultKeys]
    · intro k hk h
      simp only [resultKeys, List.mem_cons, List.not_mem_nil, or_false] at hk
      rcases hk with rfl | rfl | rfl | rfl | rfl | rfl | rfl | rfl | rfl | rfl | rfl | rfl <;>
        simp [normalizeResult, nullFallback, normalizeGrapes, clampJson, clamp01,
              toNumber, jsTruthy, h]

/-- Claim C4 witness: the amended theorem at the concrete request of the
counterexample, plus the client normalization of the empty record at the
omitted `label_text_read` field. -/
theorem C4_amended_witness :
    ((POST envC4W).status = 200 ∧
     jsGetProp (POST envC4W).body "extracted".data =
       some (Json.obj [("producer".data, Json.str "X".data)])) ∧
    ("label_text_read".data, Json.null) ∈ normalizeResult (Json.obj []) :=
  ⟨(C4_amended envC4W "\x7b\"producer\":\"X\"\x7d".data "\x7b\x7d".data
      (Json.obj [("producer".data, Json.str "X".data)])
      (by decide) rfl rfl rfl).1,
   ((C4_amended envC4W "\x7b\"producer\":\"X\"\x7d".data "\x7b\x7d".data
      (Json.obj [("producer".data, Json.str "X".data)])
      (by decide) rfl rfl rfl).2 (Json.obj [])).2
     "label_text_read".data (by decide) rfl⟩

